import Mathlib

/-!
Shallow embedding of the `guidebooks/ray` repository: three hyperparameter
tuning notebooks (Nevergrad, SigOpt, BayesOpt), an RLlib YAML experiment
file (`cartpole-crashing-with-remote-envs-pg`), and the NYC taxi
data-processing notebook (`nyc_taxi_basic_processing.ipynb`).

Every definition below is translated from the repository's source files;
the one exception is `crashesAtStep`, whose doc comment marks it as
modelled from the spec (the `CartPoleCrashing` environment class lives in
the external `ray.rllib` package and is not part of the sources here).
-/

/- ### Search-algorithm backends constructed by the tuning notebooks -/

/-- The three kinds of pluggable search-algorithm backend that appear in
the tuning notebooks: the evolutionary Nevergrad optimizer, the Bayesian
black-box BayesOpt optimizer, and the commercial SigOpt service. -/
inductive SearchBackendKind
  | nevergrad
  | bayesopt
  | sigopt
deriving DecidableEq, Repr

/-- A search-algorithm object as constructed in the notebooks: one of the
three backend constructors, possibly wrapped in a `ConcurrencyLimiter`. -/
inductive SearchAlg
  | nevergradSearch (optimizer : String)
  | bayesOptSearch (utilityKind : String) (kappa : ℚ) (xi : ℚ)
  | sigOptSearch (experimentName : String) (maxConcurrent : Nat)
  | concurrencyLimiter (inner : SearchAlg) (maxConcurrent : Nat)
deriving DecidableEq, Repr

/-- The backend kind underlying a search-algorithm object, looking through
`ConcurrencyLimiter` wrappers. -/
def SearchAlg.backendKind : SearchAlg → SearchBackendKind
  | .nevergradSearch _ => .nevergrad
  | .bayesOptSearch _ _ _ => .bayesopt
  | .sigOptSearch _ _ => .sigopt
  | .concurrencyLimiter inner _ => inner.backendKind

/-- The Nevergrad optimizer name carried by a search-algorithm object, if
its backend is `NevergradSearch` (looking through wrappers). -/
def SearchAlg.nevergradOptimizer : SearchAlg → Option String
  | .nevergradSearch opt => some opt
  | .concurrencyLimiter inner _ => inner.nevergradOptimizer
  | _ => none

/-- A `tune.run(...)` invocation: the experiment `name=` argument and the
object passed as `search_alg=`. -/
structure TuneRunCall where
  runName : String
  search_alg : SearchAlg
deriving DecidableEq, Repr

/-- Nevergrad notebook, first `algo` construction:
`NevergradSearch(optimizer=ng.optimizers.OnePlusOne)` wrapped in
`tune.search.ConcurrencyLimiter(algo, max_concurrent=4)`. -/
def nevergradAlgoFirst : SearchAlg :=
  .concurrencyLimiter (.nevergradSearch "ng.optimizers.OnePlusOne") 4

/-- Nevergrad notebook, second `algo` construction (the optional
"passing the parameter space into the search algorithm" section): again
`NevergradSearch` over `ng.optimizers.OnePlusOne` wrapped in a
`ConcurrencyLimiter` with `max_concurrent=4`. -/
def nevergradAlgoSecond : SearchAlg :=
  .concurrencyLimiter (.nevergradSearch "ng.optimizers.OnePlusOne") 4

/-- All search-algorithm objects constructed by the Nevergrad notebook. -/
def nevergradConstructedAlgos : List SearchAlg :=
  [nevergradAlgoFirst, nevergradAlgoSecond]

/-- The two `tune.run` invocations in the Nevergrad notebook, both with
`name="nevergrad_exp"` and `search_alg=algo`. -/
def nevergradTuneRuns : List TuneRunCall :=
  [⟨"nevergrad_exp", nevergradAlgoFirst⟩, ⟨"nevergrad_exp", nevergradAlgoSecond⟩]

/-- BayesOpt notebook `algo` construction:
`BayesOptSearch(utility_kwargs={"kind": "ucb", "kappa": 2.5, "xi": 0.0})`
wrapped in `ConcurrencyLimiter(algo, max_concurrent=4)`. -/
def bayesoptAlgo : SearchAlg :=
  .concurrencyLimiter (.bayesOptSearch "ucb" (5 / 2) 0) 4

/-- All search-algorithm objects constructed by the BayesOpt notebook. -/
def bayesoptConstructedAlgos : List SearchAlg := [bayesoptAlgo]

/-- The single `tune.run` invocation in the BayesOpt notebook. -/
def bayesoptTuneRuns : List TuneRunCall := [⟨"bayesopt_exp", bayesoptAlgo⟩]

/-- SigOpt notebook, first `algo`:
`SigOptSearch(space, name="SigOpt Example Experiment", max_concurrent=1, ...)`. -/
def sigoptAlgoScalar : SearchAlg := .sigOptSearch "SigOpt Example Experiment" 1

/-- SigOpt notebook, second `algo` (multi-objective section):
`SigOptSearch(space, name="sigopt_multiobj_exp", ..., max_concurrent=1, ...)`. -/
def sigoptAlgoMultiObjective : SearchAlg := .sigOptSearch "sigopt_multiobj_exp" 1

/-- SigOpt notebook, third `algo` (prior-beliefs section):
`SigOptSearch(connection=conn, ..., name="sigopt_prior_multi_exp", max_concurrent=1, ...)`. -/
def sigoptAlgoPrior : SearchAlg := .sigOptSearch "sigopt_prior_multi_exp" 1

/-- All search-algorithm objects constructed by the SigOpt notebook. -/
def sigoptConstructedAlgos : List SearchAlg :=
  [sigoptAlgoScalar, sigoptAlgoMultiObjective, sigoptAlgoPrior]

/-- The three `tune.run` invocations in the SigOpt notebook, each with
`search_alg=algo`. -/
def sigoptTuneRuns : List TuneRunCall :=
  [⟨"sigopt_exp", sigoptAlgoScalar⟩,
   ⟨"sigopt_multiobj_exp", sigoptAlgoMultiObjective⟩,
   ⟨"sigopt_prior_multi_exp", sigoptAlgoPrior⟩]

/-- Every `tune.run` invocation appearing anywhere in the repository's
source files (the NYC taxi notebook and the YAML file contain none). -/
def allTuneRuns : List TuneRunCall :=
  nevergradTuneRuns ++ bayesoptTuneRuns ++ sigoptTuneRuns

/-- The distinct backend kinds among a list of constructed search algorithms. -/
def constructedKinds (algos : List SearchAlg) : List SearchBackendKind :=
  (algos.map SearchAlg.backendKind).dedup

/-- C1: each of the three tuning notebooks constructs search-algorithm
objects of exactly one of the three backend kinds — Nevergrad over
`ng.optimizers.OnePlusOne` (evolutionary), BayesOpt (Bayesian black-box),
and SigOpt (commercial service) — every `tune.run` invocation of each
notebook passes one of that notebook's constructed algorithms as its
`search_alg` argument, and consequently every `tune.run` invocation in the
repository carries a `search_alg` drawn from these three backends. -/
theorem tuning_notebooks_use_exactly_three_backends :
    constructedKinds nevergradConstructedAlgos = [.nevergrad]
    ∧ constructedKinds bayesoptConstructedAlgos = [.bayesopt]
    ∧ constructedKinds sigoptConstructedAlgos = [.sigopt]
    ∧ nevergradConstructedAlgos.map SearchAlg.nevergradOptimizer
        = [some "ng.optimizers.OnePlusOne", some "ng.optimizers.OnePlusOne"]
    ∧ nevergradTuneRuns.map TuneRunCall.search_alg = nevergradConstructedAlgos
    ∧ bayesoptTuneRuns.map TuneRunCall.search_alg = bayesoptConstructedAlgos
    ∧ sigoptTuneRuns.map TuneRunCall.search_alg = sigoptConstructedAlgos
    ∧ allTuneRuns.map (fun r => r.search_alg.backendKind)
        = [.nevergrad, .nevergrad, .bayesopt, .sigopt, .sigopt, .sigopt] :=
  ⟨by decide, by decide, by decide, rfl, rfl, rfl, rfl, rfl⟩

/- ### The RLlib YAML experiment file -/

/-- The `env_config.config` block of the YAML file: per-step crash
probability, deterministic crash step, and simulated initialization time. -/
structure CrashingEnvConfig where
  p_crash : ℚ
  crash_after_n_steps : Nat
  init_time_s : ℚ
deriving DecidableEq, Repr

/-- The fields of the single YAML experiment
`cartpole-crashing-with-remote-envs-pg`. -/
structure CartpoleCrashingExperiment where
  env : String
  run : String
  stop_episode_reward_mean : ℚ
  stop_timesteps_total : Nat
  framework : String
  env_config : CrashingEnvConfig
  num_workers : Nat
  num_envs_per_worker : Nat
  rollout_fragment_length : Nat
  remote_worker_envs : Bool
  disable_env_checking : Bool
  restart_failed_sub_environments : Bool
deriving DecidableEq, Repr

/-- The YAML file's single experiment, field for field. -/
def cartpoleCrashingWithRemoteEnvsPg : CartpoleCrashingExperiment :=
  ⟨"ray.rllib.examples.env.cartpole_crashing.CartPoleCrashing", "PG",
   35, 25000, "tf", ⟨0, 60, 2⟩, 4, 3, 50, true, true, true⟩

/-- Modelled from the spec: the `CartPoleCrashing` environment class
(`ray.rllib.examples.env.cartpole_crashing`, referenced by the YAML file
but not present under the sources here) injects failures into a toy
environment: at a given step, a sub-environment crashes either
probabilistically, when the step's uniform random draw from `[0, 1)`
falls below `p_crash`, or deterministically, once the step counter
reaches `crash_after_n_steps` (the YAML file's own comment: "Crash all
envs always exactly after n steps"). -/
def crashesAtStep (cfg : CrashingEnvConfig) (step : Nat) (draw : ℚ) : Bool :=
  decide (draw < cfg.p_crash) || decide (step = cfg.crash_after_n_steps)

/-- C2: the YAML file configures an RL training job with algorithm `PG`
on the toy `CartPoleCrashing` environment; failure injection is
deterministic rather than probabilistic — `p_crash` is `0.0` while
`crash_after_n_steps` is `60`, so (for any nonnegative random draw) a
sub-environment crashes at a step exactly when that step is `60` — and
fault tolerance is delegated to the framework via
`restart_failed_sub_environments: true`. -/
theorem cartpole_yaml_deterministic_crash (step : Nat) (draw : ℚ)
    (hdraw : 0 ≤ draw) :
    cartpoleCrashingWithRemoteEnvsPg.run = "PG"
    ∧ cartpoleCrashingWithRemoteEnvsPg.env
        = "ray.rllib.examples.env.cartpole_crashing.CartPoleCrashing"
    ∧ cartpoleCrashingWithRemoteEnvsPg.env_config.p_crash = 0
    ∧ cartpoleCrashingWithRemoteEnvsPg.env_config.crash_after_n_steps = 60
    ∧ cartpoleCrashingWithRemoteEnvsPg.restart_failed_sub_environments = true
    ∧ (crashesAtStep cartpoleCrashingWithRemoteEnvsPg.env_config step draw = true
        ↔ step = 60) := by
  refine ⟨rfl, rfl, rfl, rfl, rfl, ?_⟩
  have hnot : ¬ draw < (0 : ℚ) := not_lt.mpr hdraw
  simp [crashesAtStep, cartpoleCrashingWithRemoteEnvsPg, hnot]

/-- Witness for `cartpole_yaml_deterministic_crash` at step `60` and
random draw `1/2`. -/
theorem cartpole_yaml_deterministic_crash_witness :
    (0 : ℚ) ≤ 1 / 2
    ∧ (crashesAtStep cartpoleCrashingWithRemoteEnvsPg.env_config 60 (1 / 2) = true
        ↔ (60 : Nat) = 60) := by
  refine ⟨by norm_num, ?_⟩
  exact (cartpole_yaml_deterministic_crash 60 (1 / 2) (by norm_num)).2.2.2.2.2

/- ### The tuning notebooks' evaluation functions and search spaces -/

/-- The `activation_boost` local of `evaluate` in the Nevergrad and SigOpt
notebooks: `10 if activation=="relu" else 1`. -/
def activationBoost (activation : String) : ℚ :=
  if activation = "relu" then 10 else 1

/-- `evaluate(step, width, height, activation)` of the Nevergrad and
SigOpt notebooks (the `time.sleep(0.1)` call only delays and is not part
of the returned value):
`(0.1 + width * step / 100) ** (-1) + height * 0.1 + activation_boost`. -/
def evaluate (step width height : ℚ) (activation : String) : ℚ :=
  (0.1 + width * step / 100)⁻¹ + height * 0.1 + activationBoost activation

/-- `evaluate(step, width, height)` of the BayesOpt notebook:
`(0.1 + width * step / 100) ** (-1) + height * 0.1`. -/
def evaluateBayes (step width height : ℚ) : ℚ :=
  (0.1 + width * step / 100)⁻¹ + height * 0.1

/-- A `tune.uniform(lo, hi)` search-space entry. -/
structure UniformRange where
  lo : ℚ
  hi : ℚ
deriving DecidableEq, Repr

/-- The Nevergrad notebook's `search_config` dictionary: a fixed `steps`,
two `tune.uniform` ranges, and a `tune.choice` over a list of strings. -/
structure NevergradSearchSpace where
  steps : Nat
  width : UniformRange
  height : UniformRange
  activationChoices : List String
deriving DecidableEq, Repr

/-- The Nevergrad notebook's `search_config`; note that the `tune.choice`
list holds the single string `"relu, tanh"` (one string, not two). -/
def search_config : NevergradSearchSpace :=
  ⟨100, ⟨0, 20⟩, ⟨-100, 100⟩, ["relu, tanh"]⟩

/-- C6: every activation value sampled from the Nevergrad notebook's
`search_config` is the single string `"relu, tanh"`, which differs from
`"relu"`; hence `activation_boost` is always `1`, `evaluate` reduces to
`(0.1 + width * step / 100)⁻¹ + height * 0.1 + 1`, and the relu branch
(boost `10`) is unreachable under this search space. -/
theorem nevergrad_activation_relu_branch_unreachable (a : String)
    (ha : a ∈ search_config.activationChoices) :
    a = "relu, tanh" ∧ a ≠ "relu" ∧ activationBoost a = 1
    ∧ ∀ step width height : ℚ,
        evaluate step width height a
          = (0.1 + width * step / 100)⁻¹ + height * 0.1 + 1 := by
  have haeq : a = "relu, tanh" := by
    simpa [search_config] using ha
  subst haeq
  have hboost : activationBoost "relu, tanh" = 1 := by
    rw [activationBoost, if_neg (by decide)]
  exact ⟨rfl, by decide, hboost, fun step width height => by rw [evaluate, hboost]⟩

/-- Witness for `nevergrad_activation_relu_branch_unreachable` at the
concrete choice `"relu, tanh"` and inputs `step = 1`, `width = 2`,
`height = 3`. -/
theorem nevergrad_activation_relu_branch_unreachable_witness :
    "relu, tanh" ∈ search_config.activationChoices
    ∧ evaluate 1 2 3 "relu, tanh" = (0.1 + 2 * 1 / 100)⁻¹ + 3 * 0.1 + 1 := by
  refine ⟨by decide, ?_⟩
  exact (nevergrad_activation_relu_branch_unreachable "relu, tanh"
    (by decide)).2.2.2 1 2 3

/-- C8: on the search domain (`step ≥ 0`, `width ≥ 0`, arbitrary `height`
and `activation`) the base `0.1 + width * step / 100` of the reciprocal in
`evaluate` is at least `0.1` and hence nonzero, so the reciprocal is
well-defined and neither notebook's `evaluate` divides by zero; both
functions equal their defining formulas with that nonzero base. -/
theorem evaluate_total_on_search_domain (step width height : ℚ)
    (activation : String) (hs : 0 ≤ step) (hw : 0 ≤ width) :
    1 / 10 ≤ 0.1 + width * step / 100
    ∧ 0.1 + width * step / 100 ≠ 0
    ∧ evaluate step width height activation
        = (0.1 + width * step / 100)⁻¹ + height * 0.1 + activationBoost activation
    ∧ evaluateBayes step width height
        = (0.1 + width * step / 100)⁻¹ + height * 0.1 := by
  have hnn : 0 ≤ width * step / 100 := by positivity
  have hbase : 1 / 10 ≤ 0.1 + width * step / 100 := by
    have h01 : (0.1 : ℚ) = 1 / 10 := by norm_num
    linarith
  have hpos : 0 < 0.1 + width * step / 100 := by
    have : (0 : ℚ) < 1 / 10 := by norm_num
    linarith
  exact ⟨hbase, ne_of_gt hpos, rfl, rfl⟩

/-- Witness for `evaluate_total_on_search_domain` at `step = 0`,
`width = 0`, `height = 0`, `activation = "tanh"`. -/
theorem evaluate_total_on_search_domain_witness :
    (0 : ℚ) ≤ 0 ∧ ((0.1 : ℚ) + 0 * 0 / 100) ≠ 0 :=
  ⟨le_refl 0,
   (evaluate_total_on_search_domain 0 0 0 "tanh" (le_refl 0) (le_refl 0)).2.1⟩

/- ### The NYC taxi data-processing notebook -/

/-- A distributed-dataset-API operation that produces the notebook's
dataset value `ds` (an assignment `ds = ...` in the notebook). -/
inductive TaxiStep
  | readParquet (paths : List String)
  | filterPassengerCountLe (bound : Int)
  | filterPassengerCountGt (bound : Int)
  | dropColumns (cols : List String)
  | randomShuffle
deriving DecidableEq, Repr

/-- The chain of assignments to `ds` in `nyc_taxi_basic_processing.ipynb`,
in notebook order: `ray.data.read_parquet` of the two 2009 files, the
`map_batches` filter `passenger_count <= 10`, `drop_columns` of
`store_and_fwd_flag` and `mta_tax`, the `map_batches` filter
`passenger_count > 0`, and `random_shuffle`. (The side datasets `year_ds`
and `pushdown_ds` are separate values that are deleted and never flow
into `ds`.) -/
def taxiDsAssignments : List TaxiStep :=
  [.readParquet ["s3://ursa-labs-taxi-data/2009/01/data.parquet",
                 "s3://ursa-labs-taxi-data/2009/02/data.parquet"],
   .filterPassengerCountLe 10,
   .dropColumns ["store_and_fwd_flag", "mta_tax"],
   .filterPassengerCountGt 0,
   .randomShuffle]

/-- A grouped statistic computed on `ds` (not reassigned to `ds`). -/
inductive TaxiGroupedStat
  | countBy (key : String)
  | meanBy (key : String) (valueCol : String)
deriving DecidableEq, Repr

/-- The grouped statistics of the notebook:
`ds.groupby("passenger_count").count()` and
`ds.groupby("passenger_count").mean("trip_distance")`. -/
def taxiGroupedStats : List TaxiGroupedStat :=
  [.countBy "passenger_count", .meanBy "passenger_count" "trip_distance"]

/-- The notebook's `trainers = [Trainer.remote(i) for i in range(4)]`. -/
def taxiNumTrainers : Nat := 4

/-- The `n=` argument of `shards = ds.split(n=len(trainers), equal=True)`. -/
def taxiSplitCount : Nat := taxiNumTrainers

/-- The `equal=` argument of the notebook's `ds.split`. -/
def taxiSplitEqual : Bool := true

/-- One batch-inference `ds.map_batches(BatchInferModel, batch_size=...,
compute=...)` invocation: its batch size and actor-pool bounds (the plain
`compute="actors"` strategy is recorded as an unbounded pool). -/
structure InferenceCall where
  batch_size : Nat
  poolMin : Option Nat
  poolMax : Option Nat
deriving DecidableEq, Repr

/-- The three batch-inference `map_batches` invocations of the notebook:
`batch_size=2048, compute="actors"`, `batch_size=256, compute="actors"`,
and `batch_size=256, compute=ActorPoolStrategy(min_size=2, max_size=8)`. -/
def taxiInferenceCalls : List InferenceCall :=
  [⟨2048, none, none⟩, ⟨256, none, none⟩, ⟨256, some 2, some 8⟩]

/-- The column schema of the dataset as read from the Parquet metadata
(the notebook's `ds.schema()` cell). -/
def taxiInitialColumns : List String :=
  ["vendor_id", "pickup_at", "dropoff_at", "passenger_count",
   "trip_distance", "pickup_longitude", "pickup_latitude", "rate_code_id",
   "store_and_fwd_flag", "dropoff_longitude", "dropoff_latitude",
   "payment_type", "fare_amount", "extra", "mta_tax", "tip_amount",
   "tolls_amount", "total_amount"]

/-- Row semantics of one pipeline step: whether a row with the given
`passenger_count` survives the step (non-filter steps keep every row). -/
def stepKeepsRow : TaxiStep → Int → Bool
  | .filterPassengerCountLe bound, pc => decide (pc ≤ bound)
  | .filterPassengerCountGt bound, pc => decide (bound < pc)
  | _, _ => true

/-- Whether a row with the given `passenger_count` survives every filter
of a pipeline. -/
def pipelineKeepsRow (steps : List TaxiStep) (pc : Int) : Bool :=
  steps.all (fun s => stepKeepsRow s pc)

/-- Column semantics of one pipeline step: `drop_columns` removes the
named columns, every other step keeps the schema. -/
def stepColumns : TaxiStep → List String → List String
  | .dropColumns cols, cs => cs.filter (fun c => !cols.contains c)
  | _, cs => cs

/-- The column schema after running a pipeline from a starting schema. -/
def pipelineColumns (steps : List TaxiStep) (cs : List String) : List String :=
  steps.foldl (fun acc s => stepColumns s acc) cs

/-- The notebook's dummy inference model (`load_model` inside
`BatchInferModel`): scores a row by `passenger_count % 2 == 0`. -/
def batchInferModelScore (passenger_count : Int) : Bool :=
  passenger_count % 2 == 0

/-- C3: the notebook's dataset value is produced exclusively by the
distributed dataset API: `read_parquet` of the two taxi files, the
`passenger_count <= 10` filter, then dropping `store_and_fwd_flag` and
`mta_tax`, the `passenger_count > 0` filter, and a full `random_shuffle`;
the grouped statistics are the two `passenger_count` aggregations; the
shuffled dataset is split into `4` equal shards, one per trainer actor;
and batch inference happens via the three `map_batches` calls of the
parity model. A row survives the pipeline's filters exactly when
`0 < passenger_count ≤ 10`, and the final schema is the initial schema
minus the two dropped columns. -/
theorem taxi_pipeline_is_dataset_api_only :
    taxiDsAssignments
      = [.readParquet ["s3://ursa-labs-taxi-data/2009/01/data.parquet",
                       "s3://ursa-labs-taxi-data/2009/02/data.parquet"],
         .filterPassengerCountLe 10,
         .dropColumns ["store_and_fwd_flag", "mta_tax"],
         .filterPassengerCountGt 0,
         .randomShuffle]
    ∧ taxiGroupedStats
        = [.countBy "passenger_count", .meanBy "passenger_count" "trip_distance"]
    ∧ taxiNumTrainers = 4 ∧ taxiSplitCount = taxiNumTrainers
    ∧ taxiSplitEqual = true
    ∧ taxiInferenceCalls.length = 3
    ∧ (∀ pc : Int,
        pipelineKeepsRow taxiDsAssignments pc
          = (decide (0 < pc) && decide (pc ≤ 10)))
    ∧ pipelineColumns taxiDsAssignments taxiInitialColumns
        = taxiInitialColumns.filter
            (fun c => !(c == "store_and_fwd_flag") && !(c == "mta_tax"))
    ∧ (∀ pc : Int, batchInferModelScore pc = decide (pc % 2 = 0)) := by
  refine ⟨rfl, rfl, rfl, rfl, rfl, rfl, ?_, by decide, ?_⟩
  · intro pc
    by_cases h1 : pc ≤ 10 <;> by_cases h2 : 0 < pc <;>
      simp [pipelineKeepsRow, stepKeepsRow, taxiDsAssignments, h1, h2]
  · intro pc
    by_cases h : pc % 2 = 0 <;>
      simp [batchInferModelScore, beq_iff_eq, h, Int.dvd_iff_emod_eq_zero]

/- ### Name resolution across the SigOpt notebook's cells -/

/-- One top-level Python statement of a notebook cell: the global names it
reads (in evaluation order) and the global names it binds. -/
structure PyStmt where
  uses : List String
  defines : List String
deriving DecidableEq, Repr

/-- A notebook code cell: its top-level statements in order. -/
abbrev PyCell := List PyStmt

/-- Python builtins referenced at top level by the SigOpt notebook. -/
def builtinNames : List String := ["print", "dict", "range", "len"]

/-- Execute one statement: resolve each read name against the accumulated
globals (or the builtins); the first unresolvable name raises `NameError`
carrying that name, otherwise the statement's bindings are added. -/
def execStmt (env : List String) (s : PyStmt) : Except String (List String) :=
  match s.uses.find? (fun n => !(env.contains n || builtinNames.contains n)) with
  | some n => .error n
  | none => .ok (env ++ s.defines)

/-- Execute the statements of a cell in order, stopping at the first
`NameError`. -/
def execStmts (env : List String) : List PyStmt → Except String (List String)
  | [] => .ok env
  | s :: rest =>
    match execStmt env s with
    | .error n => .error n
    | .ok env2 => execStmts env2 rest

/-- Execute a list of cells in order, stopping at the first `NameError`. -/
def execCells (env : List String) : List PyCell → Except String (List String)
  | [] => .ok env
  | c :: rest =>
    match execStmts env c with
    | .error n => .error n
    | .ok env2 => execCells env2 rest

/-- The SigOpt notebook's code cells preceding the "Incorporating prior
beliefs" cell that evaluates `Connection(...)`, in notebook order: the
pip-install cell, the imports cell (which also checks `SIGOPT_KEY`), the
`evaluate` and `objective` definitions, `ray.init`, the commented-out
`search_config` cell, `space`, the first `algo`, `num_samples`, the first
`tune.run` and its `print`, the multi-objective definitions, the second
`space`/`algo`, the second `tune.run` and its `print`, and the
prior-beliefs objective definitions. -/
def sigoptCellsBeforeConnection : List PyCell :=
  [[⟨[], []⟩],
   [⟨[], ["time", "os", "ray", "np", "tune", "session", "SigOptSearch"]⟩,
    ⟨["os"], []⟩],
   [⟨[], ["evaluate"]⟩],
   [⟨[], ["objective"]⟩],
   [⟨["ray"], []⟩],
   [],
   [⟨[], ["space"]⟩],
   [⟨["SigOptSearch", "space"], ["algo"]⟩],
   [⟨[], ["num_samples"]⟩],
   [⟨["tune", "objective", "algo", "num_samples"], ["analysis"]⟩],
   [⟨["print", "analysis"], []⟩],
   [⟨["np"], ["vector1", "vector2", "evaluate", "multi_objective"]⟩],
   [⟨[], ["space"]⟩, ⟨["SigOptSearch", "space", "num_samples"], ["algo"]⟩],
   [⟨["tune", "multi_objective", "algo", "num_samples"], ["analysis"]⟩],
   [⟨["print", "analysis"], []⟩],
   [⟨["np"], ["vector1", "vector2", "vector3", "evaluate", "multi_objective_two"]⟩]]

/-- The "Incorporating prior beliefs" cell, statement by statement:
`samples = num_samples`, then
`conn = Connection(client_token=os.environ["SIGOPT_KEY"])`, then
`experiment = conn.experiments().create(...)` (whose keyword arguments use
`dict` and `samples`), then `algo = SigOptSearch(connection=conn, ...)`. -/
def sigoptConnectionCell : PyCell :=
  [⟨["num_samples"], ["samples"]⟩,
   ⟨["Connection", "os"], ["conn"]⟩,
   ⟨["conn", "dict", "samples"], ["experiment"]⟩,
   ⟨["SigOptSearch", "conn", "experiment"], ["algo"]⟩]

/-- Evaluating the Connection cell after executing the first `k` cells of
the SigOpt notebook: `true` when that prefix executes without `NameError`,
`Connection` is neither bound by the prefix nor a builtin, and the
Connection cell raises a `NameError` (for whichever name its execution
reaches first). -/
def connectionCellRaisesAfter (k : Nat) : Bool :=
  match execCells [] (sigoptCellsBeforeConnection.take k) with
  | .ok env =>
    !env.contains "Connection" && !builtinNames.contains "Connection"
      && (match execStmts env sigoptConnectionCell with
          | .error _ => true
          | .ok _ => false)
  | .error _ => false

/-- The name for which the Connection cell raises `NameError` when it is
evaluated in its actual position, after all preceding cells have run. -/
def connectionCellErrorNameAtEnd : Option String :=
  match execCells [] sigoptCellsBeforeConnection with
  | .ok env =>
    match execStmts env sigoptConnectionCell with
    | .error n => some n
    | .ok _ => none
  | .error _ => none

/-- C7: no cell of the SigOpt notebook preceding the prior-beliefs
section imports or defines the name `Connection`; after executing any
prefix of those cells (each prefix succeeds, so every program state
reachable by running the cells in order is covered) the cell containing
`Connection(client_token=os.environ["SIGOPT_KEY"])` raises `NameError`;
and in its actual position — all preceding cells executed — the name it
fails to resolve is exactly `Connection`. -/
theorem sigopt_connection_cell_raises_nameerror :
    (sigoptCellsBeforeConnection.all
      (fun c => c.all (fun s => !s.defines.contains "Connection"))) = true
    ∧ ((List.range (sigoptCellsBeforeConnection.length + 1)).all
        connectionCellRaisesAfter) = true
    ∧ connectionCellErrorNameAtEnd = some "Connection" := by
  refine ⟨?_, ?_, ?_⟩ <;> decide

/- ### Failure handling across the repository's cells -/

/-- One code cell of a notebook, with whether its source contains a
`raise` statement and whether it contains a `try`/`except` block. -/
structure CodeCell where
  notebook : String
  cellId : String
  raisesError : Bool
  catchesError : Bool
deriving DecidableEq, Repr

/-- The code cells of the Nevergrad notebook, by cell id, in notebook
order, with their raise/catch profiles read off the source. -/
def nevergradCodeCells : List CodeCell :=
  [⟨"nevergrad", "5ab54f85", false, false⟩,
   ⟨"nevergrad", "1f6d7a31", false, false⟩,
   ⟨"nevergrad", "271bd5c5", false, false⟩,
   ⟨"nevergrad", "c71fc423", false, false⟩,
   ⟨"nevergrad", "619263ee", false, false⟩,
   ⟨"nevergrad", "f099b674", false, false⟩,
   ⟨"nevergrad", "adb807bc", false, false⟩,
   ⟨"nevergrad", "191c7f89", false, false⟩,
   ⟨"nevergrad", "8829ffc5", false, false⟩,
   ⟨"nevergrad", "769f4368", false, false⟩,
   ⟨"nevergrad", "0f021674", false, false⟩,
   ⟨"nevergrad", "89ae7455", false, false⟩,
   ⟨"nevergrad", "e52eeab1", false, false⟩,
   ⟨"nevergrad", "64f39800", false, false⟩,
   ⟨"nevergrad", "0478c1ea", false, false⟩]

/-- The code cells of the SigOpt notebook; only the import cell
`152fce99` contains a `raise` statement. -/
def sigoptCodeCells : List CodeCell :=
  [⟨"sigopt", "6e1d6d8a", false, false⟩,
   ⟨"sigopt", "152fce99", true, false⟩,
   ⟨"sigopt", "2f9f7650", false, false⟩,
   ⟨"sigopt", "7284f24a", false, false⟩,
   ⟨"sigopt", "394c722e", false, false⟩,
   ⟨"sigopt", "57dbed8d", false, false⟩,
   ⟨"sigopt", "7f542011", false, false⟩,
   ⟨"sigopt", "a9737339", false, false⟩,
   ⟨"sigopt", "38991a3c", false, false⟩,
   ⟨"sigopt", "a2b6d066", false, false⟩,
   ⟨"sigopt", "3567e642", false, false⟩,
   ⟨"sigopt", "8e13db27", false, false⟩,
   ⟨"sigopt", "47ed922c", false, false⟩,
   ⟨"sigopt", "de17bd46", false, false⟩,
   ⟨"sigopt", "fcd606dd", false, false⟩,
   ⟨"sigopt", "870dfb0d", false, false⟩,
   ⟨"sigopt", "fa992019", false, false⟩,
   ⟨"sigopt", "da778e0f", false, false⟩,
   ⟨"sigopt", "6b9142bc", false, false⟩,
   ⟨"sigopt", "3e0151e1", false, false⟩]

/-- The code cells of the BayesOpt notebook. -/
def bayesoptCodeCells : List CodeCell :=
  [⟨"bayesopt", "7ed16354", false, false⟩,
   ⟨"bayesopt", "6d36c78b", false, false⟩,
   ⟨"bayesopt", "646c75a9", false, false⟩,
   ⟨"bayesopt", "e9adf637", false, false⟩,
   ⟨"bayesopt", "bc634b1d", false, false⟩,
   ⟨"bayesopt", "6f1d2fe7", false, false⟩,
   ⟨"bayesopt", "d777201c", false, false⟩,
   ⟨"bayesopt", "bb5f39a6", false, false⟩,
   ⟨"bayesopt", "116f8757", false, false⟩,
   ⟨"bayesopt", "5c44a0c5", false, false⟩,
   ⟨"bayesopt", "3488aefa", false, false⟩,
   ⟨"bayesopt", "2936353a", false, false⟩]

/-- The code cells of the NYC taxi notebook. -/
def nycTaxiCodeCells : List CodeCell :=
  [⟨"nyc_taxi", "ed5b22a4", false, false⟩,
   ⟨"nyc_taxi", "366de039", false, false⟩,
   ⟨"nyc_taxi", "269da3de", false, false⟩,
   ⟨"nyc_taxi", "c6c2f47d", false, false⟩,
   ⟨"nyc_taxi", "5812dacf", false, false⟩,
   ⟨"nyc_taxi", "63894b9c", false, false⟩,
   ⟨"nyc_taxi", "6e653e63", false, false⟩,
   ⟨"nyc_taxi", "7f0b8702", false, false⟩,
   ⟨"nyc_taxi", "f2d46bfa", false, false⟩,
   ⟨"nyc_taxi", "9cc641b3", false, false⟩,
   ⟨"nyc_taxi", "6383b4a2", false, false⟩,
   ⟨"nyc_taxi", "9703a5dd", false, false⟩,
   ⟨"nyc_taxi", "8a403bb4", false, false⟩,
   ⟨"nyc_taxi", "fa539237", false, false⟩,
   ⟨"nyc_taxi", "b9fb839a", false, false⟩,
   ⟨"nyc_taxi", "67f9565b", false, false⟩,
   ⟨"nyc_taxi", "9f2de4f5", false, false⟩,
   ⟨"nyc_taxi", "3a0a9567", false, false⟩,
   ⟨"nyc_taxi", "baa016b7", false, false⟩,
   ⟨"nyc_taxi", "d1847d7d", false, false⟩,
   ⟨"nyc_taxi", "245a8a97", false, false⟩,
   ⟨"nyc_taxi", "643acc6f", false, false⟩,
   ⟨"nyc_taxi", "c192e4d7", false, false⟩,
   ⟨"nyc_taxi", "d175439a", false, false⟩,
   ⟨"nyc_taxi", "d60d0e0d", false, false⟩,
   ⟨"nyc_taxi", "b1ae3f38", false, false⟩,
   ⟨"nyc_taxi", "de681909", false, false⟩,
   ⟨"nyc_taxi", "04fac86d", false, false⟩,
   ⟨"nyc_taxi", "0c7365b7", false, false⟩,
   ⟨"nyc_taxi", "c382fc0a", false, false⟩,
   ⟨"nyc_taxi", "a0db5ba1", false, false⟩]

/-- Every code cell of the four notebooks. -/
def repoCodeCells : List CodeCell :=
  nevergradCodeCells ++ sigoptCodeCells ++ bayesoptCodeCells ++ nycTaxiCodeCells

/-- The SigOpt notebook's import cell `152fce99`: its source reads
`if "SIGOPT_KEY" not in os.environ: raise ValueError(...)`. -/
def sigoptImportsCell : CodeCell := ⟨"sigopt", "152fce99", true, false⟩

/-- The error message of the SigOpt notebook's `raise ValueError(...)`. -/
def sigoptKeyMessage : String :=
  "SigOpt API Key not found. Please set the SIGOPT_KEY environment variable."

/-- The `SIGOPT_KEY` check of the SigOpt notebook's import cell, over the
set of environment-variable names: raise `ValueError` when `SIGOPT_KEY`
is absent from `os.environ`, otherwise fall through. -/
def sigoptImportsCellCheck (environ : List String) : Except String Unit :=
  if "SIGOPT_KEY" ∉ environ then .error sigoptKeyMessage else .ok ()

/-- C4 counterexample: the claim that no function or cell defined in this
repository raises an error fails at the SigOpt notebook's import cell,
which raises `ValueError` itself; concretely, under an empty environment
its `SIGOPT_KEY` check raises rather than delegating anything. -/
theorem repo_raises_no_error_counterexample :
    sigoptImportsCell ∈ repoCodeCells
    ∧ sigoptImportsCell.raisesError = true
    ∧ ¬ (repoCodeCells.all (fun c => !c.raisesError)) = true
    ∧ sigoptImportsCellCheck [] = .error sigoptKeyMessage :=
  ⟨by decide, rfl, by decide, rfl⟩

/-- C4 amended: restart of crashed sub-environments and environment
checking are delegated to the external training framework via the YAML
flags `restart_failed_sub_environments: true` and
`disable_env_checking: true`, and no cell of the repository catches or
recovers from an error; but the handling of a missing API key is owned by
the repository itself: the SigOpt notebook's import cell — the only cell
in the repository that raises — raises `ValueError` exactly when
`SIGOPT_KEY` is absent from the environment. -/
theorem failure_handling_delegated_except_sigopt_key_check :
    ((repoCodeCells.filter (fun c => c.raisesError)).map CodeCell.cellId
        = ["152fce99"])
    ∧ (repoCodeCells.all (fun c => !c.catchesError)) = true
    ∧ (∀ environ : List String,
        sigoptImportsCellCheck environ = .ok () ↔ "SIGOPT_KEY" ∈ environ)
    ∧ cartpoleCrashingWithRemoteEnvsPg.restart_failed_sub_environments = true
    ∧ cartpoleCrashingWithRemoteEnvsPg.disable_env_checking = true := by
  refine ⟨by decide, by decide, ?_, rfl, rfl⟩
  intro environ
  unfold sigoptImportsCellCheck
  by_cases h : "SIGOPT_KEY" ∈ environ <;> simp [h]

/- ### What the notebooks define themselves vs. what they delegate -/

/-- A function or method defined by a notebook itself: its (qualified)
name, its notebook, and the names its own body calls. -/
structure DefinedCallable where
  name : String
  notebook : String
  calls : List String
deriving DecidableEq, Repr

/-- Every function, method and class body the notebooks define
themselves, with the calls appearing in each body, read off the source. -/
def repoDefinedCallables : List DefinedCallable :=
  [⟨"evaluate", "nevergrad", ["time.sleep"]⟩,
   ⟨"objective", "nevergrad", ["range", "evaluate", "session.report"]⟩,
   ⟨"evaluate", "sigopt", ["time.sleep"]⟩,
   ⟨"objective", "sigopt", ["range", "evaluate", "session.report"]⟩,
   ⟨"evaluate", "sigopt-multiobj", ["total.mean", "total.std"]⟩,
   ⟨"multi_objective", "sigopt", ["evaluate", "session.report", "time.sleep"]⟩,
   ⟨"evaluate", "sigopt-prior", ["total.mean", "total.std"]⟩,
   ⟨"multi_objective_two", "sigopt", ["evaluate", "session.report"]⟩,
   ⟨"evaluate", "bayesopt", ["time.sleep"]⟩,
   ⟨"objective", "bayesopt", ["range", "evaluate", "session.report"]⟩,
   ⟨"Trainer.__init__", "nyc_taxi", []⟩,
   ⟨"Trainer.train", "nyc_taxi", ["shard.iter_batches", "shard.count"]⟩,
   ⟨"load_model", "nyc_taxi", []⟩,
   ⟨"model", "nyc_taxi", ["pd.DataFrame"]⟩,
   ⟨"BatchInferModel.__init__", "nyc_taxi", ["load_model"]⟩,
   ⟨"BatchInferModel.__call__", "nyc_taxi", ["self.model"]⟩]

/-- The hard-engineering operations named by the spec: trial scheduling,
concurrency limiting, distributed shuffling, fault-tolerant environment
restart, and the search algorithms themselves. -/
def hardEngineeringOps : List String :=
  ["tune.run", "ConcurrencyLimiter", "random_shuffle",
   "restart_failed_sub_environments", "NevergradSearch", "BayesOptSearch",
   "SigOptSearch"]

/-- External-library API invocations made at the top level of the
notebooks' cells (outside any repository-defined body), read off the
source. -/
def notebookLibraryInvocations : List String :=
  ["ray.init", "ray.shutdown", "NevergradSearch", "ConcurrencyLimiter",
   "tune.run", "tune.uniform", "tune.choice", "BayesOptSearch",
   "SigOptSearch", "Connection", "ray.data.read_parquet", "map_batches",
   "drop_columns", "groupby", "random_shuffle", "split", "ray.remote",
   "ray.get", "ActorPoolStrategy"]

/-- C5: no scheduler, protocol, cache, or state machine is implemented by
the repository: each hard-engineering operation is either an invocation of
the external libraries' API from the notebooks' top level (the search
backends, `ConcurrencyLimiter`, `tune.run`, `random_shuffle`) or the YAML
flag `restart_failed_sub_environments: true` handing restart to the
framework; the bodies of the functions and classes the notebooks define
themselves — including the claim's `evaluate`, `objective`,
`multi_objective`, `Trainer`, and `BatchInferModel` — call none of these
operations. -/
theorem hard_engineering_delegated_to_libraries :
    (hardEngineeringOps.all (fun op =>
        notebookLibraryInvocations.contains op
          || (op == "restart_failed_sub_environments"
                && cartpoleCrashingWithRemoteEnvsPg.restart_failed_sub_environments)))
      = true
    ∧ (repoDefinedCallables.all (fun f =>
        hardEngineeringOps.all (fun op => !f.calls.contains op))) = true
    ∧ (["evaluate", "objective", "multi_objective"].all (fun n =>
        (repoDefinedCallables.map DefinedCallable.name).contains n)) = true
    ∧ (["Trainer.train", "BatchInferModel.__call__"].all (fun n =>
        (repoDefinedCallables.map DefinedCallable.name).contains n)) = true := by
  refine ⟨?_, ?_, ?_, ?_⟩ <;> decide
